import Mathlib

/-!
Shallow embedding of the Aegis event-analysis and response pipeline
(`security_monitor.py`, `response_handler.py`, and the driving loop of
`main.py`), together with proofs of the specified properties.

Modelling conventions:
* A Python event dict is an `Event` record of `Option` fields; `none` models
  an absent key.  `analyze_event` takes an `Option Event`: the outer `none`
  models the falsy arguments (`None` or the empty dict) that the
  `if not event` guard short-circuits on.
* Raw dict indexing (`event['k']`, which raises `KeyError` when the key is
  absent) is modelled by an explicit error branch returning
  `Except.error "KeyError"`; defensive access (`event.get('k')`) is ordinary
  `Option` handling.
* The failed-login dict is modelled as a total counter `String → Nat`
  (`0` for keys the dict does not hold); the code only ever reads a key
  right after initialising it to `0`, so this is observationally equivalent.
* The telemetry collaborator (`AWSIntegration`) is a record of the outcomes
  of the calls `_send_to_aws` / `_send_event_metrics` make, each an
  `Except String Bool`; an `Except.error` models the collaborator raising.
* `print` / `logger` narration carries no decision data and is dropped,
  except that the raw-indexing log lines keep their `KeyError` behaviour and
  the caught telemetry error is kept as a `telemetry_error` log field.
-/

namespace Aegis

/-- A security event: the fields the analysed code reads.  `none` models an
absent dict key.  (The `metadata` bag is only read defensively by print-only
simulation stubs and carries no decision data, so it is not modelled.) -/
structure Event where
  event_id : Option String := none
  event_type : Option String := none
  severity : Option String := none
  description : Option String := none
  source_ip : Option String := none
  user_id : Option String := none
  resource : Option String := none
  threat_indicators : Option (List String) := none
deriving DecidableEq

/-- A threat candidate as built by the detection rules. -/
structure Threat where
  threat_type : String
  description : String
  risk_score : Nat
  detection_method : String
deriving DecidableEq

/-- Python `str(x)` of a possibly-absent value inside an f-string:
an absent (`None`) value formats as the string `"None"`. -/
def pyStr (o : Option String) : String := o.getD "None"

/-- Prefix test on character lists. -/
def listIsPrefix : List Char → List Char → Bool
  | [], _ => true
  | _ :: _, [] => false
  | a :: as, b :: bs => a == b && listIsPrefix as bs

/-- Contiguous-sublist test on character lists. -/
def listIsInfix (needle : List Char) : List Char → Bool
  | [] => needle.isEmpty
  | c :: t => listIsPrefix needle (c :: t) || listIsInfix needle t

/-- Python `needle in hay` on strings: substring containment. -/
def strContains (hay needle : String) : Bool :=
  listIsInfix needle.data hay.data

/-- Python `s.lower()` (the descriptions involved are ASCII). -/
def pyLower (s : String) : String := String.mk (s.data.map Char.toLower)

/-- `security_rules["critical_keywords"]`. -/
def critical_keywords : List String :=
  ["unauthorized access", "privilege escalation", "data exfiltration",
   "malware", "code injection", "backdoor", "rootkit"]

/-- `security_rules["suspicious_keywords"]`. -/
def suspicious_keywords : List String :=
  ["brute_force", "suspicious", "anomalous", "unrecognized",
   "multiple failed", "unusual activity"]

/-- `security_rules["blocked_ips"]`. -/
def blocked_ips : List String :=
  ["203.0.113.45", "185.220.101.182", "94.142.241.111"]

/-- `security_rules["restricted_resources"]`. -/
def restricted_resources : List String :=
  ["admin_panel", "database_service", "security_config", "backup_service"]

/-- `security_rules["high_risk_users"]`. -/
def high_risk_users : List String :=
  ["temp_user", "guest_user", "unknown_user", "backdoor_user"]

/-- `severity_levels` table. -/
def severity_levels : List (String × Nat) :=
  [("info", 1), ("warning", 2), ("high", 3), ("critical", 4)]

/-- Python `dict.get(k, d)` over an association list. -/
def lookupD (m : List (String × Nat)) (k : String) (d : Nat) : Nat :=
  ((m.find? fun p => p.1 == k).map Prod.snd).getD d

/-- Mutable state of `SecurityMonitor`: the failed-login dict (as a total
counter, `0` on keys the dict does not hold) and `max_failed_attempts`. -/
structure MonitorState where
  failed_login_attempts : String → Nat
  max_failed_attempts : Nat

/-- The state installed by `SecurityMonitor.__init__`. -/
def initialMonitorState : MonitorState := ⟨fun _ => 0, 3⟩

/-- `reset_monitoring_state`: clears the failed-login dict. -/
def reset_monitoring_state (st : MonitorState) : MonitorState :=
  ⟨fun _ => 0, st.max_failed_attempts⟩

/-- `_check_threat_keywords`: scan the lowered description for critical
keywords (risk 9), then suspicious keywords (risk 6). -/
def check_threat_keywords (e : Event) : Option Threat :=
  let description := pyLower (e.description.getD "")
  match critical_keywords.find? (fun keyword => strContains description keyword) with
  | some keyword =>
    some ⟨"KEYWORD_THREAT",
          "Critical security keyword detected: " ++ "'" ++ keyword ++ "'",
          9, "keyword_analysis"⟩
  | none =>
    match suspicious_keywords.find? (fun keyword => strContains description keyword) with
    | some keyword =>
      some ⟨"SUSPICIOUS_ACTIVITY",
            "Suspicious activity keyword detected: " ++ "'" ++ keyword ++ "'",
            6, "keyword_analysis"⟩
    | none => none

/-- `_check_suspicious_ip`: blocked-IP membership (an absent `source_ip`
is Python `None`, which is never a member of a list of strings). -/
def check_suspicious_ip (e : Event) : Option Threat :=
  match e.source_ip with
  | some source_ip =>
    if source_ip ∈ blocked_ips then
      some ⟨"MALICIOUS_IP",
            "Request from known malicious IP: " ++ source_ip,
            8, "ip_reputation"⟩
    else none
  | none => none

/-- `_check_suspicious_user`: high-risk-user membership. -/
def check_suspicious_user (e : Event) : Option Threat :=
  match e.user_id with
  | some user_id =>
    if user_id ∈ high_risk_users then
      some ⟨"HIGH_RISK_USER",
            "Activity from high-risk user account: " ++ user_id,
            7, "user_profile_analysis"⟩
    else none
  | none => none

/-- `_check_restricted_resource`: restricted-resource membership. -/
def check_restricted_resource (e : Event) : Option Threat :=
  match e.resource with
  | some resource =>
    if resource ∈ restricted_resources then
      some ⟨"RESTRICTED_RESOURCE_ACCESS",
            "Access attempt to restricted resource: " ++ resource,
            7, "resource_access_control"⟩
    else none
  | none => none

/-- The dict key `f"{user_id}@{source_ip}"` of the failed-login counter. -/
def flKey (e : Event) : String := pyStr e.user_id ++ "@" ++ pyStr e.source_ip

/-- `_check_failed_login_pattern`: the one stateful rule.  The source
early-returns when `event.get("event_type") != "failed_login"`; otherwise it
initialises the key to 0 if absent, increments it, and fires at
`max_failed_attempts`. -/
def check_failed_login_pattern (e : Event) (attempts : String → Nat)
    (max_failed : Nat) : Option Threat × (String → Nat) :=
  if e.event_type = some "failed_login" then
    let key := flKey e
    let n := attempts key + 1
    let attempts' := fun k => if k = key then n else attempts k
    if n ≥ max_failed then
      (some ⟨"BRUTE_FORCE_ATTACK",
             "Multiple failed login attempts detected (" ++ toString n ++ " attempts)",
             8, "behavioral_analysis"⟩, attempts')
    else (none, attempts')
  else (none, attempts)

/-- `_check_event_severity`: severity `critical` (level 4) scores 9,
`high` (level 3) scores 7. -/
def check_event_severity (e : Event) : Option Threat :=
  let severity := e.severity.getD "info"
  let severity_score := lookupD severity_levels severity 1
  if severity_score ≥ 4 then
    some ⟨"CRITICAL_SECURITY_EVENT",
          "Critical severity event detected: " ++ pyStr e.description,
          9, "severity_analysis"⟩
  else if severity_score ≥ 3 then
    some ⟨"HIGH_RISK_EVENT",
          "High severity event detected: " ++ pyStr e.description,
          7, "severity_analysis"⟩
  else none

/-- `_check_threat_indicators`: a non-empty indicator list scores
`min(10, 5 + len * 2)`. -/
def check_threat_indicators (e : Event) : Option Threat :=
  let threat_indicators := e.threat_indicators.getD []
  if threat_indicators.isEmpty then none
  else
    some ⟨"THREAT_INDICATORS_DETECTED",
          "Multiple threat indicators present: " ++ String.intercalate ", " threat_indicators,
          min 10 (5 + threat_indicators.length * 2), "threat_intelligence"⟩

/-- One step of `analyze_event`'s accumulation:
`if cand and (not cur or cand["risk_score"] > cur["risk_score"]): cur = cand`. -/
def combine : Option Threat → Option Threat → Option Threat
  | cur, none => cur
  | none, some cand => some cand
  | some cur, some cand =>
    if cur.risk_score < cand.risk_score then some cand else some cur

/-- The seven rule outputs of one `analyze_event` call, in the order the
source runs them (failed-login reads the incoming state). -/
def ruleResults (e : Event) (st : MonitorState) : List (Option Threat) :=
  [check_threat_keywords e,
   check_suspicious_ip e,
   check_suspicious_user e,
   check_restricted_resource e,
   (check_failed_login_pattern e st.failed_login_attempts st.max_failed_attempts).1,
   check_event_severity e,
   check_threat_indicators e]

/-- The rule-running core of `analyze_event` (checks 1–7): the selected
candidate and the updated monitor state. -/
def analyze_rules (e : Event) (st : MonitorState) : Option Threat × MonitorState :=
  let lr := check_failed_login_pattern e st.failed_login_attempts st.max_failed_attempts
  let t1 := combine none (check_threat_keywords e)
  let t2 := combine t1 (check_suspicious_ip e)
  let t3 := combine t2 (check_suspicious_user e)
  let t4 := combine t3 (check_restricted_resource e)
  let t5 := combine t4 lr.1
  let t6 := combine t5 (check_event_severity e)
  let t7 := combine t6 (check_threat_indicators e)
  (t7, ⟨lr.2, st.max_failed_attempts⟩)

/-- `_log_event_analysis` indexes `event['event_type']`, `event['user_id']`
and `event['source_ip']` directly: it raises `KeyError` unless all three
keys are present. -/
def log_event_analysis_ok (e : Event) : Bool :=
  e.event_type.isSome && e.user_id.isSome && e.source_ip.isSome

/-- `_log_threat_detection` indexes `event['event_id']`, `event['user_id']`,
`event['source_ip']` and `event['resource']` directly (the threat dict
fields it indexes are always present in rule-built candidates). -/
def log_threat_detection_ok (e : Event) : Bool :=
  e.event_id.isSome && e.user_id.isSome && e.source_ip.isSome && e.resource.isSome

/-- Outcomes of the telemetry collaborator's methods for one analysis call
(each method is called at most once per `analyze_event`); an `error` models
the collaborator raising at that call. -/
structure AWSIntegration where
  send_threat_alert : Except String Bool
  send_security_metric : Except String Bool
  trigger_lambda_response : Except String Bool
  create_log_stream : Except String Bool
  send_security_log : Except String Bool

/-- A collaborator on which every call succeeds. -/
def awsOk : AWSIntegration := ⟨.ok true, .ok true, .ok true, .ok true, .ok true⟩

/-- The body of `_send_to_aws`'s `try` block: the sequence of collaborator
calls, aborted at the first raise. -/
def send_to_aws_attempt (aws : AWSIntegration) (risk_score : Nat) :
    Except String Unit := do
  let _ ← aws.send_threat_alert
  let _ ← aws.send_security_metric
  if risk_score ≥ 8 then
    let _ ← aws.trigger_lambda_response
  let _ ← aws.create_log_stream
  let _ ← aws.send_security_log

/-- The `except` clause around a telemetry block: a raise becomes a logged
message, a success logs nothing. -/
def caughtU (r : Except String Unit) : Option String :=
  match r with
  | .ok _ => none
  | .error msg => some msg

/-- The `except` clause of `_send_event_metrics`. -/
def caughtB (r : Except String Bool) : Option String :=
  match r with
  | .ok _ => none
  | .error msg => some msg

/-- Everything observable about one `analyze_event` call: the Python result
(`error` models an uncaught `KeyError` from the raw-indexing log lines), the
monitor state after the call (mutations before a raise persist), and the
caught-telemetry log entry, if any. -/
structure AnalyzeResult where
  outcome : Except String (Option Threat)
  state : MonitorState
  telemetry_error : Option String

/-- `SecurityMonitor.analyze_event`. -/
def analyze_event (oe : Option Event) (st : MonitorState)
    (aws : AWSIntegration) : AnalyzeResult :=
  match oe with
  | none => ⟨.ok none, st, none⟩
  | some e =>
    if log_event_analysis_ok e then
      let r := analyze_rules e st
      match r.1 with
      | some threat_info =>
        if log_threat_detection_ok e then
          ⟨.ok (some threat_info), r.2,
           caughtU (send_to_aws_attempt aws threat_info.risk_score)⟩
        else ⟨.error "KeyError", r.2, none⟩
      | none => ⟨.ok none, r.2, caughtB aws.send_security_metric⟩
    else ⟨.error "KeyError", st, none⟩

/-! ### Response handler (`response_handler.py`) -/

/-- One entry of the `response_actions` policy table. -/
structure ResponseConfig where
  actions : List String
  priority : String
  escalation_required : Bool
deriving DecidableEq

/-- `ResponseHandler.response_actions`: the nine configured threat types. -/
def response_actions : List (String × ResponseConfig) :=
  [("KEYWORD_THREAT",
    ⟨["quarantine_session", "alert_security_team", "log_incident"], "high", true⟩),
   ("MALICIOUS_IP",
    ⟨["block_ip", "terminate_connections", "alert_security_team"], "high", true⟩),
   ("HIGH_RISK_USER",
    ⟨["suspend_user", "audit_user_activity", "notify_admin"], "medium", true⟩),
   ("RESTRICTED_RESOURCE_ACCESS",
    ⟨["block_access", "isolate_resource", "alert_security_team"], "high", true⟩),
   ("BRUTE_FORCE_ATTACK",
    ⟨["block_ip", "lockout_account", "increase_monitoring"], "high", true⟩),
   ("CRITICAL_SECURITY_EVENT",
    ⟨["emergency_isolation", "executive_notification", "forensic_imaging"], "critical", true⟩),
   ("HIGH_RISK_EVENT",
    ⟨["increase_monitoring", "isolate_affected_systems", "alert_security_team"], "high", true⟩),
   ("SUSPICIOUS_ACTIVITY",
    ⟨["increase_monitoring", "log_for_analysis", "notify_admin"], "medium", false⟩),
   ("THREAT_INDICATORS_DETECTED",
    ⟨["quarantine_system", "deep_scan", "alert_security_team"], "high", true⟩)]

/-- `_get_default_response`: the policy for unknown threat types. -/
def get_default_response : ResponseConfig :=
  ⟨["log_incident", "alert_security_team", "increase_monitoring"], "medium", true⟩

/-- `self.response_actions.get(threat_type, self._get_default_response())`. -/
def resolveConfig (threat_type : String) : ResponseConfig :=
  ((response_actions.find? fun p => p.1 == threat_type).map Prod.snd).getD
    get_default_response

/-- What executing one action tag amounts to: its dedicated simulation
routine, or the generic `executed successfully` print for unresolved tags. -/
inductive SimEffect where
  | dedicated (action : String)
  | generic (action : String)
deriving DecidableEq

/-- The keys of the `action_simulations` dispatch table in
`_simulate_action_execution`. -/
def action_simulations : List String :=
  ["block_ip", "suspend_user", "quarantine_session", "alert_security_team",
   "terminate_connections", "isolate_resource", "lockout_account",
   "increase_monitoring", "emergency_isolation", "forensic_imaging",
   "deep_scan", "audit_user_activity", "log_incident", "notify_admin",
   "executive_notification"]

/-- `_simulate_action_execution`: table lookup with the generic fallback
(every routine is a print-only stub, so the effect is just which stub ran). -/
def simulate_action_execution (action : String) : SimEffect :=
  if action ∈ action_simulations then .dedicated action else .generic action

/-- The record `_log_response` appends (its wall-clock `timestamp` field is
external input with no decision role and is not modelled). -/
structure ResponseRecord where
  threat_type : String
  event_id : Option String
  risk_score : Nat
  actions_executed : List String
  priority : String
  escalation_required : Bool
deriving DecidableEq

/-- Mutable state of `ResponseHandler` (the `active_responses` dict is never
written by the analysed code paths, so only the history is modelled). -/
structure HandlerState where
  response_history : List ResponseRecord
deriving DecidableEq

/-- Everything observable about one `handle_threat` call: the Python return
value (`retval`), the handler state after the call, the executed action tags
and their resolved effects, whether escalation ran, and the
`Actions Executed:` count printed at the end (`none` on the fail-fast path). -/
structure HandleResult where
  retval : Option ResponseRecord
  state : HandlerState
  actions_run : List String
  effects : List SimEffect
  escalated : Bool
  reported_count : Option Nat
deriving DecidableEq

/-- `ResponseHandler.handle_threat`.  The source has no `return` statement
with a value: both the fail-fast path and the success path return Python
`None`, so `retval` is always `none`. -/
def handle_threat (threat_info : Option Threat) (original_event : Option Event)
    (hs : HandlerState) : HandleResult :=
  match threat_info, original_event with
  | some threat, some event =>
    let response_config := resolveConfig threat.threat_type
    let record : ResponseRecord :=
      ⟨threat.threat_type, event.event_id, threat.risk_score,
       response_config.actions, response_config.priority,
       response_config.escalation_required⟩
    ⟨none, ⟨hs.response_history ++ [record]⟩, response_config.actions,
     response_config.actions.map simulate_action_execution,
     response_config.escalation_required, some response_config.actions.length⟩
  | _, _ => ⟨none, hs, [], [], false, none⟩

/-! ### The driving loop (`main.py`) -/

/-- One cycle of `main.py`'s loop: analyze, and on a detected threat hand
the same event to the response handler.  (An uncaught `KeyError` would abort
the Python loop; the cycle then leaves the handler untouched.) -/
def pipeline_cycle (oe : Option Event) (ms : MonitorState) (hs : HandlerState)
    (aws : AWSIntegration) : MonitorState × HandlerState :=
  let r := analyze_event oe ms aws
  match r.outcome with
  | .ok (some threat_detected) =>
    (r.state, (handle_threat (some threat_detected) oe hs).state)
  | _ => (r.state, hs)

/-- A sequence of loop cycles. -/
def pipeline_run (es : List (Option Event)) (ms : MonitorState)
    (hs : HandlerState) (aws : AWSIntegration) : MonitorState × HandlerState :=
  match es with
  | [] => (ms, hs)
  | e :: rest =>
    let p := pipeline_cycle e ms hs aws
    pipeline_run rest p.1 p.2 aws

end Aegis

deriving instance DecidableEq for Except

namespace Aegis

/-! ### Properties of the candidate-selection fold -/

@[simp] theorem combine_none_right (a : Option Threat) : combine a none = a := by
  cases a <;> rfl

@[simp] theorem combine_none_left (b : Option Threat) : combine none b = b := by
  cases b <;> rfl

theorem combine_some_some (a c : Threat) :
    combine (some a) (some c) =
      if a.risk_score < c.risk_score then some c else some a := rfl

theorem combine_eq_none (a b : Option Threat) (h : combine a b = none) :
    a = none ∧ b = none := by
  cases a with
  | none =>
    cases b with
    | none => exact ⟨rfl, rfl⟩
    | some c => simp [combine] at h
  | some t =>
    cases b with
    | none => simp at h
    | some c =>
      rw [combine_some_some] at h
      split at h <;> simp at h

theorem combine_acc_le (a : Threat) (o : Option Threat) :
    ∃ b, combine (some a) o = some b ∧ a.risk_score ≤ b.risk_score := by
  cases o with
  | none => exact ⟨a, by simp, le_refl _⟩
  | some c =>
    by_cases h : a.risk_score < c.risk_score
    · exact ⟨c, by simp [combine_some_some, h], le_of_lt h⟩
    · exact ⟨a, by simp [combine_some_some, h], le_refl _⟩

theorem combine_cand_le (o : Option Threat) (c : Threat) :
    ∃ b, combine o (some c) = some b ∧ c.risk_score ≤ b.risk_score := by
  cases o with
  | none => exact ⟨c, by simp, le_refl _⟩
  | some a =>
    by_cases h : a.risk_score < c.risk_score
    · exact ⟨c, by simp [combine_some_some, h], le_refl _⟩
    · exact ⟨a, by simp [combine_some_some, h], le_of_not_lt h⟩

theorem foldl_combine_mem (rs : List (Option Threat)) :
    ∀ acc t, rs.foldl combine acc = some t → acc = some t ∨ some t ∈ rs := by
  induction rs with
  | nil => intro acc t h; exact Or.inl h
  | cons o rest ih =>
    intro acc t h
    rw [List.foldl_cons] at h
    rcases ih _ _ h with h1 | h1
    · cases o with
      | none => rw [combine_none_right] at h1; exact Or.inl h1
      | some c =>
        cases acc with
        | none =>
          rw [combine_none_left] at h1
          exact Or.inr (by rw [← h1]; exact List.mem_cons_self _ _)
        | some a =>
          rw [combine_some_some] at h1
          split at h1
          · exact Or.inr (by rw [← h1]; exact List.mem_cons_self _ _)
          · exact Or.inl h1
    · exact Or.inr (List.mem_cons_of_mem _ h1)

theorem foldl_combine_eq_none (rs : List (Option Threat)) :
    ∀ acc, rs.foldl combine acc = none → acc = none ∧ ∀ o ∈ rs, o = none := by
  induction rs with
  | nil => intro acc h; exact ⟨h, by simp⟩
  | cons o rest ih =>
    intro acc h
    rw [List.foldl_cons] at h
    obtain ⟨hco, hrest⟩ := ih _ h
    obtain ⟨hacc, ho⟩ := combine_eq_none _ _ hco
    refine ⟨hacc, fun o' ho' => ?_⟩
    rcases List.mem_cons.mp ho' with h1 | h1
    · rw [h1, ho]
    · exact hrest o' h1

theorem foldl_combine_of_all_none (rs : List (Option Threat))
    (h : ∀ o ∈ rs, o = none) : rs.foldl combine none = none := by
  induction rs with
  | nil => rfl
  | cons o rest ih =>
    rw [List.foldl_cons, h o (List.mem_cons_self _ _), combine_none_right]
    exact ih fun o' ho' => h o' (List.mem_cons_of_mem _ ho')

/-- The selection property the analyzer is specified to have: `t` occurs
among the rule outputs, every earlier fired rule scored strictly lower, and
every later fired rule scored no higher — i.e. `t` is the first candidate of
maximal risk score, ties broken towards the earlier rule. -/
def SelectsFirstMax (rs : List (Option Threat)) (t : Threat) : Prop :=
  ∃ pre suf, rs = pre ++ some t :: suf ∧
    (∀ u, some u ∈ pre → u.risk_score < t.risk_score) ∧
    (∀ u, some u ∈ suf → u.risk_score ≤ t.risk_score)

theorem foldl_combine_spec (rs : List (Option Threat)) :
    ∀ acc t, rs.foldl combine acc = some t →
      (acc = some t ∧ ∀ u, some u ∈ rs → u.risk_score ≤ t.risk_score) ∨
      ((∀ a, acc = some a → a.risk_score < t.risk_score) ∧ SelectsFirstMax rs t) := by
  induction rs with
  | nil => intro acc t h; exact Or.inl ⟨h, by simp⟩
  | cons o rest ih =>
    intro acc t h
    rw [List.foldl_cons] at h
    rcases ih (combine acc o) t h with ⟨hco, hrest⟩ | ⟨hacc, pre, suf, hrs, hpre, hsuf⟩
    · cases o with
      | none =>
        rw [combine_none_right] at hco
        refine Or.inl ⟨hco, fun u hu => ?_⟩
        rcases List.mem_cons.mp hu with h1 | h1
        · simp at h1
        · exact hrest u h1
      | some c =>
        cases acc with
        | none =>
          rw [combine_none_left] at hco
          injection hco with hct
          subst hct
          exact Or.inr ⟨by simp, [], rest, rfl, by simp, hrest⟩
        | some a =>
          rw [combine_some_some] at hco
          by_cases hlt : a.risk_score < c.risk_score
          · rw [if_pos hlt] at hco
            injection hco with hct
            subst hct
            refine Or.inr ⟨?_, [], rest, rfl, by simp, hrest⟩
            intro a' ha'
            injection ha' with ha''
            rw [← ha'']; exact hlt
          · rw [if_neg hlt] at hco
            refine Or.inl ⟨hco, fun u hu => ?_⟩
            injection hco with hat
            rcases List.mem_cons.mp hu with h1 | h1
            · injection h1 with h2
              rw [h2, ← hat]
              exact le_of_not_lt hlt
            · exact hrest u h1
    · refine Or.inr ⟨?_, o :: pre, suf, by rw [hrs]; rfl, ?_, hsuf⟩
      · intro a ha
        subst ha
        obtain ⟨b, hb, hab⟩ := combine_acc_le a o
        exact lt_of_le_of_lt hab (hacc b hb)
      · intro u hu
        rcases List.mem_cons.mp hu with h1 | h1
        · obtain ⟨b, hb, hub⟩ := combine_cand_le acc u
          rw [← h1] at hacc
          exact lt_of_le_of_lt hub (hacc b hb)
        · exact hpre u h1

theorem analyze_rules_fst_eq (e : Event) (st : MonitorState) :
    (analyze_rules e st).1 = (ruleResults e st).foldl combine none := rfl

theorem analyze_rules_snd_eq (e : Event) (st : MonitorState) :
    (analyze_rules e st).2 =
      ⟨(check_failed_login_pattern e st.failed_login_attempts
          st.max_failed_attempts).2, st.max_failed_attempts⟩ := rfl

end Aegis

namespace Aegis

/-! ### Per-rule facts -/

theorem check_threat_keywords_score (e : Event) (t : Threat)
    (h : check_threat_keywords e = some t) : t.risk_score ≤ 10 := by
  simp only [check_threat_keywords] at h
  split at h
  · injection h with h'
    rw [← h']; norm_num
  · split at h
    · injection h with h'
      rw [← h']; norm_num
    · exact absurd h (by simp)

theorem check_suspicious_ip_score (e : Event) (t : Threat)
    (h : check_suspicious_ip e = some t) : t.risk_score ≤ 10 := by
  simp only [check_suspicious_ip] at h
  split at h
  · split at h
    · injection h with h'
      rw [← h']; norm_num
    · exact absurd h (by simp)
  · exact absurd h (by simp)

theorem check_suspicious_user_score (e : Event) (t : Threat)
    (h : check_suspicious_user e = some t) : t.risk_score ≤ 10 := by
  simp only [check_suspicious_user] at h
  split at h
  · split at h
    · injection h with h'
      rw [← h']; norm_num
    · exact absurd h (by simp)
  · exact absurd h (by simp)

theorem check_restricted_resource_score (e : Event) (t : Threat)
    (h : check_restricted_resource e = some t) : t.risk_score ≤ 10 := by
  simp only [check_restricted_resource] at h
  split at h
  · split at h
    · injection h with h'
      rw [← h']; norm_num
    · exact absurd h (by simp)
  · exact absurd h (by simp)

theorem check_failed_login_pattern_score (e : Event) (att : String → Nat)
    (m : Nat) (t : Threat)
    (h : (check_failed_login_pattern e att m).1 = some t) : t.risk_score ≤ 10 := by
  simp only [check_failed_login_pattern] at h
  split at h
  · split at h
    · simp only [Prod.fst] at h
      injection h with h'
      rw [← h']; norm_num
    · exact absurd h (by simp)
  · exact absurd h (by simp)

theorem check_event_severity_score (e : Event) (t : Threat)
    (h : check_event_severity e = some t) : t.risk_score ≤ 10 := by
  simp only [check_event_severity] at h
  split at h
  · injection h with h'
    rw [← h']; norm_num
  · split at h
    · injection h with h'
      rw [← h']; norm_num
    · exact absurd h (by simp)

theorem check_threat_indicators_score (e : Event) (t : Threat)
    (h : check_threat_indicators e = some t) : t.risk_score ≤ 10 := by
  simp only [check_threat_indicators] at h
  split at h
  · exact absurd h (by simp)
  · injection h with h'
    rw [← h']
    exact min_le_left 10 _

theorem ruleResults_score_le (e : Event) (st : MonitorState) :
    ∀ o ∈ ruleResults e st, ∀ t, o = some t → t.risk_score ≤ 10 := by
  intro o ho t hot
  subst hot
  simp only [ruleResults, List.mem_cons, List.not_mem_nil, or_false] at ho
  rcases ho with h | h | h | h | h | h | h
  · exact check_threat_keywords_score e t h.symm
  · exact check_suspicious_ip_score e t h.symm
  · exact check_suspicious_user_score e t h.symm
  · exact check_restricted_resource_score e t h.symm
  · exact check_failed_login_pattern_score e _ _ t h.symm
  · exact check_event_severity_score e t h.symm
  · exact check_threat_indicators_score e t h.symm

end Aegis

namespace Aegis

/-! ### Bridging `analyze_event` and its rule core -/

theorem analyze_outcome_some (e : Event) (st : MonitorState) (aws : AWSIntegration)
    (t : Threat) (h : (analyze_event (some e) st aws).outcome = .ok (some t)) :
    (analyze_rules e st).1 = some t := by
  by_cases hlog : log_event_analysis_ok e
  · rcases hr : (analyze_rules e st).1 with _ | ti
    · simp [analyze_event, hlog, hr] at h
    · by_cases hlog2 : log_threat_detection_ok e
      · simp [analyze_event, hlog, hr, hlog2] at h
        rw [h]
      · simp [analyze_event, hlog, hr, hlog2] at h
  · simp [analyze_event, hlog] at h

theorem analyze_outcome_none_of (e : Event) (st : MonitorState) (aws : AWSIntegration)
    (hlog : log_event_analysis_ok e = true) (hnone : (analyze_rules e st).1 = none) :
    (analyze_event (some e) st aws).outcome = .ok none := by
  simp [analyze_event, hlog, hnone]

theorem analyze_outcome_some_of (e : Event) (st : MonitorState) (aws : AWSIntegration)
    (t : Threat) (hlog : log_event_analysis_ok e = true)
    (hlog2 : log_threat_detection_ok e = true)
    (hsome : (analyze_rules e st).1 = some t) :
    (analyze_event (some e) st aws).outcome = .ok (some t) := by
  simp [analyze_event, hlog, hlog2, hsome]

theorem analyze_state_of_log (e : Event) (st : MonitorState) (aws : AWSIntegration)
    (hlog : log_event_analysis_ok e = true) :
    (analyze_event (some e) st aws).state = (analyze_rules e st).2 := by
  rcases hr : (analyze_rules e st).1 with _ | ti
  · simp [analyze_event, hlog, hr]
  · by_cases hlog2 : log_threat_detection_ok e <;>
      simp [analyze_event, hlog, hr, hlog2]

theorem analyze_state_of_nolog (e : Event) (st : MonitorState) (aws : AWSIntegration)
    (hlog : log_event_analysis_ok e = false) :
    (analyze_event (some e) st aws).state = st := by
  simp [analyze_event, hlog]

theorem check_failed_login_pattern_snd_not (e : Event) (att : String → Nat) (m : Nat)
    (h : ¬ e.event_type = some "failed_login") :
    (check_failed_login_pattern e att m).2 = att := by
  simp [check_failed_login_pattern, h]

theorem check_failed_login_pattern_snd_yes (e : Event) (att : String → Nat) (m : Nat)
    (h : e.event_type = some "failed_login") :
    (check_failed_login_pattern e att m).2 =
      fun k => if k = flKey e then att (flKey e) + 1 else att k := by
  simp only [check_failed_login_pattern, h, if_true]
  by_cases hc : att (flKey e) + 1 ≥ m <;> simp [hc]

theorem check_failed_login_pattern_fst_yes (e : Event) (att : String → Nat) (m : Nat)
    (h : e.event_type = some "failed_login") :
    (check_failed_login_pattern e att m).1 =
      if att (flKey e) + 1 ≥ m then
        some ⟨"BRUTE_FORCE_ATTACK",
              "Multiple failed login attempts detected (" ++
                toString (att (flKey e) + 1) ++ " attempts)",
              8, "behavioral_analysis"⟩
      else none := by
  simp only [check_failed_login_pattern, h, if_true]
  by_cases hc : att (flKey e) + 1 ≥ m <;> simp [hc]

theorem analyze_state_not_login (e : Event) (st : MonitorState) (aws : AWSIntegration)
    (h : ¬ e.event_type = some "failed_login") :
    (analyze_event (some e) st aws).state = st := by
  by_cases hlog : log_event_analysis_ok e
  · rw [analyze_state_of_log e st aws hlog, analyze_rules_snd_eq,
        check_failed_login_pattern_snd_not _ _ _ h]
  · exact analyze_state_of_nolog e st aws (by simpa using hlog)

theorem analyze_state_login (e : Event) (st : MonitorState) (aws : AWSIntegration)
    (hft : e.event_type = some "failed_login")
    (hlog : log_event_analysis_ok e = true) :
    (analyze_event (some e) st aws).state.failed_login_attempts =
      (fun k => if k = flKey e then st.failed_login_attempts (flKey e) + 1
                else st.failed_login_attempts k) ∧
    (analyze_event (some e) st aws).state.max_failed_attempts =
      st.max_failed_attempts := by
  rw [analyze_state_of_log e st aws hlog, analyze_rules_snd_eq,
      check_failed_login_pattern_snd_yes _ _ _ hft]
  exact ⟨rfl, rfl⟩

end Aegis

namespace Aegis

/-! ### Concrete events and further helpers used by the claim theorems -/

/-- The end-to-end scenario event of the specification, completed to a
well-formed event by an arbitrary `event_id` and a `user_id` (the scenario
fixes neither; the claim theorems assume only that the user is not on the
high-risk list, so that no rule beyond the four named ones fires). -/
def c1Event (event_id user_id : String) : Event :=
  { event_id := some event_id, event_type := some "unauthorized_access",
    severity := some "critical",
    description := some "Unauthorized access attempt to restricted resource",
    source_ip := some "203.0.113.45", user_id := some user_id,
    resource := some "admin_panel" }

/-- The candidate the keyword rule produces on the scenario event. -/
def c1Candidate : Threat :=
  ⟨"KEYWORD_THREAT",
   "Critical security keyword detected: " ++ "'" ++ "unauthorized access" ++ "'",
   9, "keyword_analysis"⟩

/-- The six stateless rules all miss, so only the failed-login rule can
produce a candidate. -/
def onlyLoginRuleCanFire (e : Event) : Prop :=
  check_threat_keywords e = none ∧ check_suspicious_ip e = none ∧
  check_suspicious_user e = none ∧ check_restricted_resource e = none ∧
  check_event_severity e = none ∧ check_threat_indicators e = none

theorem analyze_rules_login_only (e : Event) (st : MonitorState)
    (ho : onlyLoginRuleCanFire e) :
    (analyze_rules e st).1 =
      (check_failed_login_pattern e st.failed_login_attempts
        st.max_failed_attempts).1 := by
  obtain ⟨h1, h2, h3, h4, h5, h6⟩ := ho
  simp [analyze_rules, h1, h2, h3, h4, h5, h6]

/-- Feeding the same event to `analyze_event` `k` times in a row. -/
def analyzeN (e : Event) (aws : AWSIntegration) : Nat → MonitorState → MonitorState
  | 0, st => st
  | n + 1, st => analyzeN e aws n (analyze_event (some e) st aws).state

theorem analyzeN_count (e : Event) (aws : AWSIntegration)
    (hft : e.event_type = some "failed_login")
    (hlog : log_event_analysis_ok e = true) :
    ∀ k st, (analyzeN e aws k st).failed_login_attempts (flKey e) =
        st.failed_login_attempts (flKey e) + k ∧
      (analyzeN e aws k st).max_failed_attempts = st.max_failed_attempts := by
  intro k
  induction k with
  | zero => intro st; exact ⟨rfl, rfl⟩
  | succ n ih =>
    intro st
    obtain ⟨hatt, hmax⟩ := analyze_state_login e st aws hft hlog
    obtain ⟨ih1, ih2⟩ := ih (analyze_event (some e) st aws).state
    refine ⟨?_, ?_⟩
    · rw [analyzeN, ih1, hatt]
      simp
      omega
    · rw [analyzeN, ih2, hmax]

/-- A benign failed-login event (every stateless rule misses it). -/
def c2Event : Event :=
  { event_id := some "EVT_002", event_type := some "failed_login",
    severity := some "warning", description := some "failed login attempt",
    source_ip := some "10.0.0.5", user_id := some "alice",
    resource := some "app_server" }

/-- `handle_threat` on present arguments appends exactly the record built
from the resolved policy entry. -/
theorem handle_threat_history (t : Threat) (e : Event) (hs : HandlerState) :
    (handle_threat (some t) (some e) hs).state.response_history =
      hs.response_history ++
        [⟨t.threat_type, e.event_id, t.risk_score,
          (resolveConfig t.threat_type).actions,
          (resolveConfig t.threat_type).priority,
          (resolveConfig t.threat_type).escalation_required⟩] := rfl

theorem resolveConfig_not_found (threat_type : String)
    (h : threat_type ∉ response_actions.map Prod.fst) :
    resolveConfig threat_type = get_default_response := by
  have hf : response_actions.find? (fun p => p.1 == threat_type) = none := by
    rw [List.find?_eq_none]
    intro p hp hbeq
    exact h (List.mem_map.mpr ⟨p, hp, by simpa using hbeq⟩)
  rw [resolveConfig, hf]
  rfl

end Aegis

namespace Aegis

/-- Risk-bound helper: any candidate `analyze_event` reports came from one
of the seven rules, so its score is at most 10. -/
theorem analyze_risk_le (oe : Option Event) (st : MonitorState)
    (aws : AWSIntegration) (t : Threat)
    (h : (analyze_event oe st aws).outcome = .ok (some t)) :
    t.risk_score ≤ 10 := by
  cases oe with
  | none => simp [analyze_event] at h
  | some e =>
    have hr := analyze_outcome_some e st aws t h
    rw [analyze_rules_fst_eq] at hr
    rcases foldl_combine_mem _ none t hr with h1 | h1
    · simp at h1
    · exact ruleResults_score_le e st _ h1 t rfl

/-! ### The claims -/

/-- Claim C1: for every event, `analyze` returns the candidate with the
strictly highest risk score among the rules that fired, evaluated in
registration order (keyword, IP-reputation, user-risk, resource,
failed-login, severity, threat-indicator), returns none when no rule fires,
and on an exact-score tie the earlier-registered rule wins (captured by
`SelectsFirstMax`); in particular the specification's scenario event
(unauthorized_access / critical / "Unauthorized access attempt to restricted
resource" / admin_panel / 203.0.113.45) yields the KEYWORD_THREAT candidate
with risk score 9. -/
theorem C1_analyze_selects_first_max :
    (∀ e st aws t, (analyze_event (some e) st aws).outcome = .ok (some t) →
        SelectsFirstMax (ruleResults e st) t)
    ∧ (∀ e st aws, log_event_analysis_ok e = true →
        (∀ o ∈ ruleResults e st, o = none) →
        (analyze_event (some e) st aws).outcome = .ok none)
    ∧ (∀ st aws event_id user_id, user_id ∉ high_risk_users →
        (analyze_event (some (c1Event event_id user_id)) st aws).outcome =
          .ok (some c1Candidate))
    ∧ c1Candidate.threat_type = "KEYWORD_THREAT"
    ∧ c1Candidate.risk_score = 9 := by
  refine ⟨?_, ?_, ?_, rfl, rfl⟩
  · intro e st aws t h
    have hr := analyze_outcome_some e st aws t h
    rw [analyze_rules_fst_eq] at hr
    rcases foldl_combine_spec _ none t hr with ⟨h1, _⟩ | ⟨_, hsel⟩
    · exact absurd h1 (by simp)
    · exact hsel
  · intro e st aws hlog hall
    refine analyze_outcome_none_of e st aws hlog ?_
    rw [analyze_rules_fst_eq]
    exact foldl_combine_of_all_none _ hall
  · intro st aws eid uid huid
    have hk : check_threat_keywords (c1Event eid uid) = some c1Candidate := rfl
    have hip : check_suspicious_ip (c1Event eid uid) =
        some ⟨"MALICIOUS_IP", "Request from known malicious IP: " ++ "203.0.113.45",
              8, "ip_reputation"⟩ := rfl
    have hu : check_suspicious_user (c1Event eid uid) = none := by
      simp [check_suspicious_user, c1Event, huid]
    have hres : check_restricted_resource (c1Event eid uid) =
        some ⟨"RESTRICTED_RESOURCE_ACCESS",
              "Access attempt to restricted resource: " ++ "admin_panel",
              7, "resource_access_control"⟩ := rfl
    have hl : ∀ att m, (check_failed_login_pattern (c1Event eid uid) att m).1 = none := by
      intro att m
      have hne : ¬ (c1Event eid uid).event_type = some "failed_login" := by
        simp [c1Event]
      simp [check_failed_login_pattern, hne]
    have hsev : check_event_severity (c1Event eid uid) =
        some ⟨"CRITICAL_SECURITY_EVENT",
              "Critical severity event detected: " ++
                "Unauthorized access attempt to restricted resource",
              9, "severity_analysis"⟩ := rfl
    have hind : check_threat_indicators (c1Event eid uid) = none := rfl
    have hrules : (analyze_rules (c1Event eid uid) st).1 = some c1Candidate := by
      simp [analyze_rules, hk, hip, hu, hres, hl, hsev, hind, combine_some_some,
            c1Candidate]
    exact analyze_outcome_some_of _ _ _ _ rfl rfl hrules

/-- Witness for C1: the scenario event with a concrete benign user. -/
theorem C1_analyze_selects_first_max_witness :
    (analyze_event (some (c1Event "EVT_001" "user123")) initialMonitorState
        awsOk).outcome = .ok (some c1Candidate) :=
  C1_analyze_selects_first_max.2.2.1 initialMonitorState awsOk "EVT_001" "user123"
    (by decide)

/-- Claim C2: with the default threshold 3, a run of identical benign
failed-login events yields no threat while the counter is below 3 and a
BRUTE_FORCE_ATTACK candidate of risk 8 from the third event on; the per-key
counter never decreases on any call; and `reset_monitoring_state` zeroes the
counter map. -/
theorem C2_failed_login_threshold :
    (∀ e aws k, e.event_type = some "failed_login" →
        log_event_analysis_ok e = true → log_threat_detection_ok e = true →
        onlyLoginRuleCanFire e →
        (analyzeN e aws k initialMonitorState).failed_login_attempts (flKey e) = k
        ∧ (k + 1 < 3 →
            (analyze_event (some e) (analyzeN e aws k initialMonitorState)
                aws).outcome = .ok none)
        ∧ (k + 1 ≥ 3 → ∃ t,
            (analyze_event (some e) (analyzeN e aws k initialMonitorState)
                aws).outcome = .ok (some t)
            ∧ t.threat_type = "BRUTE_FORCE_ATTACK" ∧ t.risk_score = 8))
    ∧ (∀ e st aws key,
        st.failed_login_attempts key ≤
          (analyze_event (some e) st aws).state.failed_login_attempts key)
    ∧ (∀ st key, (reset_monitoring_state st).failed_login_attempts key = 0) := by
  refine ⟨?_, ?_, fun st key => rfl⟩
  · intro e aws k hft hlog hlog2 honly
    have hcount := analyzeN_count e aws hft hlog k initialMonitorState
    refine ⟨by rw [hcount.1]; simp [initialMonitorState], ?_, ?_⟩
    · intro hk
      have hrules : (analyze_rules e (analyzeN e aws k initialMonitorState)).1
          = none := by
        rw [analyze_rules_login_only _ _ honly,
            check_failed_login_pattern_fst_yes _ _ _ hft, if_neg]
        rw [hcount.1, hcount.2]
        simp only [initialMonitorState]
        omega
      exact analyze_outcome_none_of _ _ _ hlog hrules
    · intro hk
      refine ⟨⟨"BRUTE_FORCE_ATTACK",
               "Multiple failed login attempts detected (" ++
                 toString ((analyzeN e aws k
                    initialMonitorState).failed_login_attempts (flKey e) + 1) ++
                 " attempts)",
               8, "behavioral_analysis"⟩, ?_, rfl, rfl⟩
      have hrules : (analyze_rules e (analyzeN e aws k initialMonitorState)).1 =
          some ⟨"BRUTE_FORCE_ATTACK",
                "Multiple failed login attempts detected (" ++
                  toString ((analyzeN e aws k
                     initialMonitorState).failed_login_attempts (flKey e) + 1) ++
                  " attempts)",
                8, "behavioral_analysis"⟩ := by
        rw [analyze_rules_login_only _ _ honly,
            check_failed_login_pattern_fst_yes _ _ _ hft, if_pos]
        rw [hcount.1, hcount.2]
        simp only [initialMonitorState]
        omega
      exact analyze_outcome_some_of _ _ _ _ hlog hlog2 hrules
  · intro e st aws key
    by_cases hlog : log_event_analysis_ok e
    · by_cases hft : e.event_type = some "failed_login"
      · obtain ⟨hatt, _⟩ := analyze_state_login e st aws hft hlog
        have hpt : (analyze_event (some e) st aws).state.failed_login_attempts key
            = if key = flKey e then st.failed_login_attempts (flKey e) + 1
              else st.failed_login_attempts key := by
          rw [hatt]
        rw [hpt]
        by_cases hkey : key = flKey e
        · rw [if_pos hkey, hkey]
          omega
        · rw [if_neg hkey]
      · rw [analyze_state_not_login e st aws hft]
    · rw [analyze_state_of_nolog e st aws (by simpa using hlog)]

/-- Witness for C2: after two benign failed logins from the same user and
IP the counter holds 2. -/
theorem C2_failed_login_threshold_witness :
    (analyzeN c2Event awsOk 2 initialMonitorState).failed_login_attempts
      (flKey c2Event) = 2 :=
  (C2_failed_login_threshold.1 c2Event awsOk 2 rfl rfl rfl
    (by refine ⟨?_, ?_, ?_, ?_, ?_, ?_⟩ <;> decide)).1

/-- Claim C3 counterexample: `handle_threat` has no value-carrying `return`
statement, so on a present threat and event its Python return value is
`None`, not a response record — refuting "respond returns a non-null
response record". -/
theorem C3_respond_returns_none :
    (handle_threat (some ⟨"KEYWORD_THREAT", "demo", 9, "keyword_analysis"⟩)
        (some (c1Event "EVT_777" "user123")) ⟨[]⟩).retval = none := rfl

/-- Claim C3 (amended): for every threat candidate (any threat-type string)
and every present event, `respond` appends exactly one record to the
response history whose `actions_executed` equals — hence has the same length
as — the resolved policy entry's action list, and prints that count of
actions executed; its Python return value is `None`. -/
theorem C3_respond_appends_record : ∀ (t : Threat) (e : Event) (hs : HandlerState),
    (handle_threat (some t) (some e) hs).state.response_history =
      hs.response_history ++
        [⟨t.threat_type, e.event_id, t.risk_score,
          (resolveConfig t.threat_type).actions,
          (resolveConfig t.threat_type).priority,
          (resolveConfig t.threat_type).escalation_required⟩]
    ∧ (∀ r, (handle_threat (some t) (some e) hs).state.response_history =
          hs.response_history ++ [r] →
        r.actions_executed.length = (resolveConfig t.threat_type).actions.length)
    ∧ (handle_threat (some t) (some e) hs).actions_run.length =
        (resolveConfig t.threat_type).actions.length
    ∧ (handle_threat (some t) (some e) hs).reported_count =
        some (resolveConfig t.threat_type).actions.length
    ∧ (handle_threat (some t) (some e) hs).retval = none := by
  intro t e hs
  refine ⟨rfl, ?_, rfl, rfl, rfl⟩
  intro r hr
  rw [handle_threat_history] at hr
  have h2 := List.append_cancel_left hr
  have h3 : r = ⟨t.threat_type, e.event_id, t.risk_score,
      (resolveConfig t.threat_type).actions,
      (resolveConfig t.threat_type).priority,
      (resolveConfig t.threat_type).escalation_required⟩ := by
    simpa using h2.symm
  rw [h3]

end Aegis

namespace Aegis

/-- Claim C4 (code bug): the null/empty-event short-circuit and the
defensive per-rule absence handling do hold, but `analyze` itself is not
raise-free: `_log_event_analysis` indexes `event['event_type']`,
`event['user_id']` and `event['source_ip']` directly, so a non-empty event
missing any of them makes `analyze` raise `KeyError` — the last conjunct
evaluates the code at such a failing input. -/
theorem C4_missing_fields_keyerror :
    (∀ st aws, analyze_event none st aws = ⟨.ok none, st, none⟩)
    ∧ (∀ e, e.description = none → check_threat_keywords e = none)
    ∧ (∀ e, e.source_ip = none → check_suspicious_ip e = none)
    ∧ (∀ e, e.user_id = none → check_suspicious_user e = none)
    ∧ (∀ e, e.resource = none → check_restricted_resource e = none)
    ∧ (∀ e att m, e.event_type = none → check_failed_login_pattern e att m = (none, att))
    ∧ (∀ e, e.severity = none → check_event_severity e = none)
    ∧ (∀ e, e.threat_indicators = none → check_threat_indicators e = none)
    ∧ (analyze_event (some { description := some "probe" }) initialMonitorState
        awsOk).outcome = .error "KeyError" := by
  refine ⟨fun st aws => rfl, ?_, ?_, ?_, ?_, ?_, ?_, ?_, rfl⟩
  · intro e h
    simp only [check_threat_keywords, h]
    rfl
  · intro e h
    simp only [check_suspicious_ip, h]
  · intro e h
    simp only [check_suspicious_user, h]
  · intro e h
    simp only [check_restricted_resource, h]
  · intro e att m h
    simp [check_failed_login_pattern, h]
  · intro e h
    simp only [check_event_severity, h]
    rfl
  · intro e h
    simp only [check_threat_indicators, h]
    rfl

/-- Witness for C4: an event with every field absent trips none of the
rules, and the probe event makes `analyze` raise. -/
theorem C4_missing_fields_keyerror_witness :
    check_threat_keywords { } = none ∧
    check_event_severity { } = none ∧
    (analyze_event (some { description := some "probe" }) initialMonitorState
        awsOk).outcome = .error "KeyError" :=
  ⟨C4_missing_fields_keyerror.2.1 { } rfl,
   C4_missing_fields_keyerror.2.2.2.2.2.2.1 { } rfl,
   C4_missing_fields_keyerror.2.2.2.2.2.2.2.2⟩

/-- Claim C5: the threat-indicator rule returns no candidate when
`threat_indicators` is absent or empty, and otherwise scores
`min(10, 5 + 2 x count)`: 7 at one indicator, clamped 10 at three and at
ten. -/
theorem C5_threat_indicator_scoring :
    (∀ e, e.threat_indicators = none ∨ e.threat_indicators = some [] →
        check_threat_indicators e = none)
    ∧ (∀ e tis, e.threat_indicators = some tis → tis ≠ [] →
        check_threat_indicators e =
          some ⟨"THREAT_INDICATORS_DETECTED",
                "Multiple threat indicators present: " ++
                  String.intercalate ", " tis,
                min 10 (5 + tis.length * 2), "threat_intelligence"⟩)
    ∧ (∀ e tis t, e.threat_indicators = some tis →
        check_threat_indicators e = some t →
        (tis.length = 1 → t.risk_score = 7) ∧
        (tis.length = 3 → t.risk_score = 10) ∧
        (tis.length = 10 → t.risk_score = 10)) := by
  refine ⟨?_, ?_, ?_⟩
  · rintro e (h | h) <;> simp [check_threat_indicators, h]
  · intro e tis h hne
    cases tis with
    | nil => exact absurd rfl hne
    | cons a as => simp [check_threat_indicators, h]
  · intro e tis t h ht
    simp only [check_threat_indicators, h] at ht
    split at ht
    · exact absurd ht (by simp)
    · injection ht with ht'
      have hrisk : t.risk_score = min 10 (5 + tis.length * 2) := by
        rw [← ht']
        simp
      refine ⟨?_, ?_, ?_⟩ <;> intro hlen <;> rw [hrisk, hlen] <;> decide

/-- Witness for C5: one concrete indicator scores 7; the empty case yields
no candidate. -/
theorem C5_threat_indicator_scoring_witness :
    check_threat_indicators { threat_indicators := some ["malware_signature"] } =
      some ⟨"THREAT_INDICATORS_DETECTED",
            "Multiple threat indicators present: " ++
              String.intercalate ", " ["malware_signature"],
            min 10 (5 + (["malware_signature"] : List String).length * 2),
            "threat_intelligence"⟩ ∧
    check_threat_indicators ({ } : Event) = none :=
  ⟨C5_threat_indicator_scoring.2.1 _ ["malware_signature"] rfl (by decide),
   C5_threat_indicator_scoring.1 ({ } : Event) (Or.inl rfl)⟩

/-- Claim C6: a threat type outside the nine configured ones resolves to
the default policy entry (log_incident, alert_security_team,
increase_monitoring; priority medium; escalation required), an action tag
without a dedicated simulation routine falls back to the generic
"executed" stub, and no threat type or action tag makes `respond` fail
(it always reports an executed-action count and resolved effects). -/
theorem C6_default_policy_fallbacks :
    (∀ threat_type, threat_type ∉ response_actions.map Prod.fst →
        resolveConfig threat_type = get_default_response)
    ∧ get_default_response =
        ⟨["log_incident", "alert_security_team", "increase_monitoring"],
         "medium", true⟩
    ∧ (∀ action, action ∉ action_simulations →
        simulate_action_execution action = SimEffect.generic action)
    ∧ (∀ t e hs, (handle_threat (some t) (some e) hs).reported_count =
          some (resolveConfig t.threat_type).actions.length
        ∧ (handle_threat (some t) (some e) hs).effects =
            (resolveConfig t.threat_type).actions.map simulate_action_execution) := by
  refine ⟨resolveConfig_not_found, rfl, ?_, fun t e hs => ⟨rfl, rfl⟩⟩
  intro action h
  simp [simulate_action_execution, h]

/-- Witness for C6: an unconfigured threat type and an unconfigured action
tag, both resolved via the fallbacks. -/
theorem C6_default_policy_fallbacks_witness :
    resolveConfig "ZERO_DAY_EXPLOIT" = get_default_response ∧
    simulate_action_execution "reverse_shell_purge" =
      SimEffect.generic "reverse_shell_purge" :=
  ⟨C6_default_policy_fallbacks.1 "ZERO_DAY_EXPLOIT" (by decide),
   C6_default_policy_fallbacks.2.2.1 "reverse_shell_purge" (by decide)⟩

/-- Claim C7: when the threat or the event argument is absent,
`handle_threat` fails fast: it returns Python `None`, executes no actions,
appends nothing to the response history, reports no count and runs no
escalation — the handler state is exactly the input state. -/
theorem C7_fail_fast_on_absent : ∀ (t : Option Threat) (e : Option Event)
    (hs : HandlerState), t = none ∨ e = none →
    handle_threat t e hs = ⟨none, hs, [], [], false, none⟩ := by
  intro t e hs h
  rcases h with h | h
  · subst h; rfl
  · subst h; cases t <;> rfl

/-- Witness for C7: an absent threat with a present event. -/
theorem C7_fail_fast_on_absent_witness :
    handle_threat none (some (c1Event "EVT_001" "user123")) ⟨[]⟩ =
      ⟨none, ⟨[]⟩, [], [], false, none⟩ :=
  C7_fail_fast_on_absent none (some (c1Event "EVT_001" "user123")) ⟨[]⟩
    (Or.inl rfl)

end Aegis

namespace Aegis

/-- Claim C8: the telemetry calls happen after the analysis result is
determined and sit inside `try/except`, so `analyze` returns the same
threat-or-none result and the same monitor state for every collaborator
behaviour — any collaborator raise is caught and never propagated (only the
caught-error log entry may differ). -/
theorem C8_telemetry_errors_swallowed : ∀ (oe : Option Event) (st : MonitorState)
    (aws aws' : AWSIntegration),
    (analyze_event oe st aws).outcome = (analyze_event oe st aws').outcome ∧
    (analyze_event oe st aws).state = (analyze_event oe st aws').state := by
  intro oe st aws aws'
  cases oe with
  | none => exact ⟨rfl, rfl⟩
  | some e =>
    by_cases hlog : log_event_analysis_ok e
    · rcases hr : (analyze_rules e st).1 with _ | ti
      · simp [analyze_event, hlog, hr]
      · by_cases hlog2 : log_threat_detection_ok e <;>
          simp [analyze_event, hlog, hr, hlog2]
    · simp [analyze_event, hlog]

/-- Claim C9: risk scores are integers in [0, 10] (they are naturals in
this embedding, so 0 is a lower bound by type): every rule-built candidate,
every candidate `analyze` returns, and — along any sequence of loop cycles
starting from a history within range — every `risk_score` stored in an
appended response record is at most 10. -/
theorem C9_risk_scores_in_range :
    (∀ e st, ∀ o ∈ ruleResults e st, ∀ t, o = some t → t.risk_score ≤ 10)
    ∧ (∀ oe st aws t, (analyze_event oe st aws).outcome = .ok (some t) →
        t.risk_score ≤ 10)
    ∧ (∀ es ms hs aws, (∀ r ∈ hs.response_history, r.risk_score ≤ 10) →
        ∀ r ∈ (pipeline_run es ms hs aws).2.response_history,
          r.risk_score ≤ 10) := by
  refine ⟨ruleResults_score_le, analyze_risk_le, ?_⟩
  intro es
  induction es with
  | nil => intro ms hs aws hinv r hr; exact hinv r hr
  | cons oe rest ih =>
    intro ms hs aws hinv r hr
    simp only [pipeline_run] at hr
    refine ih _ _ aws ?_ r hr
    intro r' hr'
    rcases hout : (analyze_event oe ms aws).outcome with msg | ot
    · simp only [pipeline_cycle, hout] at hr'
      exact hinv r' hr'
    · rcases ot with _ | t
      · simp only [pipeline_cycle, hout] at hr'
        exact hinv r' hr'
      · rcases oe with _ | e
        · simp [analyze_event] at hout
        · simp only [pipeline_cycle, hout, handle_threat_history] at hr'
          rcases List.mem_append.mp hr' with hmem | hmem
          · exact hinv r' hmem
          · rw [List.mem_singleton.mp hmem]
            exact analyze_risk_le _ _ _ t hout

/-- Witness for C9: the scenario candidate's score is within range. -/
theorem C9_risk_scores_in_range_witness : c1Candidate.risk_score ≤ 10 :=
  C9_risk_scores_in_range.2.1 (some (c1Event "EVT_001" "user123"))
    initialMonitorState awsOk c1Candidate (by rfl)

/-- Claim C10: `analyze` mutates only the failed-login counter, and only on
failed-login events: any other event (and the null event) leaves the
monitor state exactly unchanged, while a well-formed failed-login event
increments exactly the `user_id@source_ip` key by one — whatever candidate
is eventually returned — leaving every other key and the threshold
untouched. -/
theorem C10_analyze_frame :
    (∀ e st aws, ¬ e.event_type = some "failed_login" →
        (analyze_event (some e) st aws).state = st)
    ∧ (∀ st aws, (analyze_event none st aws).state = st)
    ∧ (∀ e st aws, e.event_type = some "failed_login" →
        log_event_analysis_ok e = true →
        (analyze_event (some e) st aws).state.failed_login_attempts (flKey e)
            = st.failed_login_attempts (flKey e) + 1
        ∧ (∀ key, key ≠ flKey e →
            (analyze_event (some e) st aws).state.failed_login_attempts key
              = st.failed_login_attempts key)
        ∧ (analyze_event (some e) st aws).state.max_failed_attempts
            = st.max_failed_attempts) := by
  refine ⟨analyze_state_not_login, fun st aws => rfl, ?_⟩
  intro e st aws hft hlog
  obtain ⟨hatt, hmax⟩ := analyze_state_login e st aws hft hlog
  refine ⟨?_, ?_, hmax⟩
  · have hpt : (analyze_event (some e) st aws).state.failed_login_attempts (flKey e)
        = if flKey e = flKey e then st.failed_login_attempts (flKey e) + 1
          else st.failed_login_attempts (flKey e) := by
      rw [hatt]
    rw [hpt, if_pos rfl]
  · intro key hkey
    have hpt : (analyze_event (some e) st aws).state.failed_login_attempts key
        = if key = flKey e then st.failed_login_attempts (flKey e) + 1
          else st.failed_login_attempts key := by
      rw [hatt]
    rw [hpt, if_neg hkey]

/-- Witness for C10: a concrete failed-login event bumps its own key from 0
to 1 on the initial state. -/
theorem C10_analyze_frame_witness :
    (analyze_event (some c2Event) initialMonitorState awsOk).state.failed_login_attempts
        (flKey c2Event)
      = initialMonitorState.failed_login_attempts (flKey c2Event) + 1 :=
  (C10_analyze_frame.2.2 c2Event initialMonitorState awsOk rfl rfl).1

end Aegis

namespace Aegis

/-- Witness for C3 (amended): on a concrete call the appended record's
`actions_executed` length matches the resolved policy's action count. -/
theorem C3_respond_appends_record_witness :
    (⟨"KEYWORD_THREAT", some "EVT_777", 9,
      (resolveConfig "KEYWORD_THREAT").actions,
      (resolveConfig "KEYWORD_THREAT").priority,
      (resolveConfig "KEYWORD_THREAT").escalation_required⟩ :
        ResponseRecord).actions_executed.length
      = (resolveConfig "KEYWORD_THREAT").actions.length :=
  (C3_respond_appends_record ⟨"KEYWORD_THREAT", "demo", 9, "keyword_analysis"⟩
      (c1Event "EVT_777" "user123") ⟨[]⟩).2.1 _ rfl

end Aegis
